import Mathlib

/-!
Shallow embedding of the LunchBuddy confirmation-window and booking-cycle
core (src/lunchbuddy/bot.py, src/lunchbuddy/processor.py, src/lunchbuddy/config.py,
src/lunchbuddy/models.py, src/lunchbuddy/messages.py), together with proofs
about the recorded claims on that core.

Conventions of the embedding:
* Python `set` values become `Finset ℕ` (user ids are Telegram integer ids).
* The process-wide dict `application.bot_data[LUNCH_CONFIRMATION_KEY]`
  becomes the structure `LunchConfirmation`, passed and returned explicitly.
* Exception-raising calls to external collaborators (the Telegram bot's
  `send_message`, Playwright page actions) are modelled by environments of
  type `Env` / `PageEnv` returning `Except PyExc _`.
* Side effects (log lines, outgoing messages, form submissions) are
  reified as values of the inductive `Eff`, collected in traces.
* Wall-clock time is not modelled: the weekday name computed by
  `datetime.today() + timedelta(days=1)` is the parameter `tomorrow`.
-/

namespace LunchBuddy

/-- Dietary preference enumeration (models.py, `class DietaryPreference`). -/
inductive DietaryPreference
  | VEG
  | NON_VEG
deriving DecidableEq, Repr

/-- The `.value` of each enum member (models.py: `VEG = "Veg"`, `NON_VEG = "Non Veg"`). -/
def DietaryPreference.value : DietaryPreference → String
  | .VEG => "Veg"
  | .NON_VEG => "Non Veg"

/-- User enrollment record (models.py, `class User`); `created_at` and
`updated_at` timestamps are irrelevant to the core and omitted. -/
structure User where
  telegram_id : ℕ
  full_name : String
  email : String
  dietary_preference : DietaryPreference
  preferred_days : List String
  is_enrolled : Bool := true
  is_verified : Bool := false
deriving DecidableEq, Repr

/-! Message constants (messages.py). Every use site in bot.py calls
`.strip()` on the constant, so we record the stripped text directly. -/

/-- messages.py `LUNCH_CONFIRMATION_YES` (as sent, i.e. stripped). -/
def LUNCH_CONFIRMATION_YES : String :=
  "Thanks for confirming! Lunch will be arranged for you tomorrow. 🍽️"

/-- messages.py `LUNCH_CONFIRMATION_NO` (as sent). -/
def LUNCH_CONFIRMATION_NO : String :=
  "No worries! Lunch will not be arranged for you tomorrow."

/-- messages.py `LUNCH_CONFIRMATION_EXPIRED` (as sent). -/
def LUNCH_CONFIRMATION_EXPIRED : String :=
  "This confirmation is no longer active or already recorded."

/-- messages.py `LUNCH_TIMEOUT_OPT_IN` (as sent, i.e. stripped). -/
def LUNCH_TIMEOUT_OPT_IN : String :=
  "⏰ No response received within 30 minutes.\nYour lunch will be automatically arranged for you tomorrow as per your preferences."

/-- messages.py `LUNCH_TIMEOUT_OPT_OUT` (as sent, i.e. stripped). -/
def LUNCH_TIMEOUT_OPT_OUT : String :=
  "⏰ No response received within 30 minutes.\nYour lunch will not be arranged for you tomorrow as per your preferences."

/-- The confirmation-window state: the value stored at
`application.bot_data[LUNCH_CONFIRMATION_KEY]` (bot.py `setup_handlers`),
a dict with keys `positive_response`, `negative_response`, `window_open`. -/
structure LunchConfirmation where
  positive_response : Finset ℕ
  negative_response : Finset ℕ
  window_open : Bool
deriving DecidableEq

/-- The initial window installed by `setup_handlers` (bot.py lines 86-90):
both response sets empty and `window_open = False`. -/
def initConfirmation : LunchConfirmation :=
  { positive_response := ∅, negative_response := ∅, window_open := false }

/-- The user-visible outcome of `handle_lunch_response`: which message the
handler edits into the chat. `recorded c` stands for the accepted response
`c` (the handler replies `LUNCH_CONFIRMATION_YES` / `LUNCH_CONFIRMATION_NO`),
`expired` for the reply `LUNCH_CONFIRMATION_EXPIRED`, and `ignored` for the
fall-through where an open window receives callback data matching neither
branch (unreachable through the registered pattern `lunch_(yes|no)`). -/
inductive Outcome
  | recorded (choice : String)
  | expired
  | ignored
deriving DecidableEq, Repr

/-- The text `handle_lunch_response` edits into the chat for each outcome. -/
def Outcome.replyText : Outcome → Option String
  | .recorded c =>
      if c = "lunch_yes" then some LUNCH_CONFIRMATION_YES
      else if c = "lunch_no" then some LUNCH_CONFIRMATION_NO
      else none
  | .expired => some LUNCH_CONFIRMATION_EXPIRED
  | .ignored => none

/-- bot.py `handle_lunch_response` (lines 375-390), state part: `id` is
`update.effective_user.id`, `response` is `query.data`. While the window is
open a `lunch_yes` adds `id` to `positive_response` and a `lunch_no` adds it
to `negative_response` (never removing it from the other set); while closed
the state is untouched and the reply is the expired message. -/
def handle_lunch_response (id : ℕ) (response : String) (st : LunchConfirmation) :
    LunchConfirmation × Outcome :=
  if st.window_open then
    if response = "lunch_yes" then
      ({ st with positive_response := insert id st.positive_response },
       .recorded "lunch_yes")
    else if response = "lunch_no" then
      ({ st with negative_response := insert id st.negative_response },
       .recorded "lunch_no")
    else (st, .ignored)
  else (st, .expired)

/-- bot.py `send_lunch_reminders` (lines 347-350), state part: the three
assignments replace both response sets with fresh empty sets and set
`window_open = True`. (The reminder fan-out itself is a pure side effect on
the Notifier and does not touch the window.) -/
def send_lunch_reminders_state (_st : LunchConfirmation) : LunchConfirmation :=
  { positive_response := ∅, negative_response := ∅, window_open := true }

/-! ### Trace semantics for the window

The window is mutated by exactly three code sites: the open performed at the
top of `send_lunch_reminders`, the record performed by
`handle_lunch_response`, and the close performed by the first statement of
`process_lunch_bookings` (line 393, `window_open = False`). In the asyncio
model each of these critical sections contains no `await` between its test
and its mutation, so each runs as one atomic step; a schedule is a list of
such steps. -/

/-- One atomic mutation of the window. -/
inductive Op
  | openW
  | record (id : ℕ) (response : String)
  | close
deriving DecidableEq, Repr

/-- Effect of one atomic operation on the window state. -/
def stepOp (st : LunchConfirmation) : Op → LunchConfirmation
  | .openW => send_lunch_reminders_state st
  | .record id response => (handle_lunch_response id response st).1
  | .close => { st with window_open := false }

/-- Run a list of operations from a given state. -/
def runFrom (st : LunchConfirmation) (ops : List Op) : LunchConfirmation :=
  ops.foldl stepOp st

/-- Run a list of operations from the start-up state. -/
def runOps (ops : List Op) : LunchConfirmation :=
  runFrom initConfirmation ops

/-- A window state is reachable when some sequence of opens, records and
closes produces it from the start-up state. -/
def Reachable (st : LunchConfirmation) : Prop :=
  ∃ ops : List Op, runOps ops = st

/-! ### External collaborators: exceptions, page environment, config -/

/-- Python exceptions the core can observe. -/
inductive PyExc
  | attributeError (attr : String)
  | typeError (msg : String)
  | playwrightTimeout
  | telegramError (msg : String)
deriving DecidableEq, Repr

/-- Behaviour of the Playwright page driven by `BrowserAutomator`
(processor.py): each primitive either succeeds or raises. Selector strings
are kept as opaque text (the single quotes of the source selectors are
dropped, selectors being uninterpreted here). -/
structure PageEnv where
  start : Except PyExc Unit
  goto : String → Except PyExc Unit
  fill : String → String → Except PyExc Unit
  click : String → Except PyExc Unit
  wait_for_selector : String → Except PyExc Unit

/-- The field names declared by `class Settings` in config.py. Note that
`form_url` (used at bot.py line 445) and `lunch_reminder_timeout` (used at
line 116) are NOT among them. -/
def settingsFields : List String :=
  ["log_level", "log_file", "log_rotation_when", "log_backup_count",
   "telegram_bot_token", "telegram_chat_id", "database_url",
   "lunch_reminder_time", "lunch_days"]

/-- The attribute access `settings.form_url` (bot.py line 445): pydantic
settings raise `AttributeError` for an attribute that is not a declared
field. The `.ok` branch is dead (its value is a placeholder) because
`form_url` is not in `settingsFields`. -/
def settings_form_url : Except PyExc String :=
  if "form_url" ∈ settingsFields then .ok "form_url"
  else .error (.attributeError "form_url")

/-- The method names defined by `class BrowserAutomator` (processor.py). -/
def browserAutomatorMethods : List String :=
  ["__init__", "start", "navigate", "fill_text_field", "button_click",
   "is_element_with_text_present", "stop", "fill_form"]

/-- The attribute name `book_lunch` invokes on the fresh `BrowserAutomator`
(bot.py line 445: `browser_automator.run_all(...)`). -/
def bookingMethodName : String := "run_all"

/-- processor.py `BrowserAutomator.is_element_with_text_present`
(lines 38-48): waits for `selector:has-text(text)`; returns `False` on
`PlaywrightTimeoutError` and on any other exception (both caught inside). -/
def is_element_with_text_present (env : PageEnv) (selector text : String) : Bool :=
  match env.wait_for_selector (selector ++ ":has-text(" ++ text ++ ")") with
  | .ok _ => true
  | .error _ => false

/-- processor.py `BrowserAutomator.fill_form` (lines 56-105): the scripted
click sequence. Any exception in the `try` body is caught and yields
`False`; the inner `Get Started` click swallows only the Playwright
timeout; the final result is the presence of the `Thank you!` header. -/
def fill_form (env : PageEnv) (ia_url email : String)
    (dietary_preference : DietaryPreference) : Bool :=
  match env.start with
  | .error _ => false
  | .ok _ =>
  match env.goto ia_url with
  | .error _ => false
  | .ok _ =>
  match (match env.click "button:has-text(Get Started)" with
         | .error .playwrightTimeout => Except.ok ()
         | r => r) with
  | .error _ => false
  | .ok _ =>
  match env.fill "#inpt.ushur-visualmenu-open-input.ushurapp-input.form-control" email with
  | .error _ => false
  | .ok _ =>
  match env.click "button:has-text(Next)" with
  | .error _ => false
  | .ok _ =>
  match env.click "span:has-text(Yes)" with
  | .error _ => false
  | .ok _ =>
  match env.click ("span:has-text(" ++ dietary_preference.value ++ ")") with
  | .error _ => false
  | .ok _ =>
  match env.click "button:has-text(Next)" with
  | .error _ => false
  | .ok _ => is_element_with_text_present env "h2" "Thank you!"

/-! ### The booking side effects -/

/-- Reified side effects of the resolution pass. `bookLunchCall` marks the
driver entering `book_lunch` for a user; `formSubmit` marks an actual
dispatch into `BrowserAutomator.fill_form` with its boolean result. -/
inductive Eff
  | logInfo (text : String)
  | logError (text : String)
  | sendMessage (chat_id : ℕ) (text : String)
  | bookLunchCall (email : String) (diet : DietaryPreference)
  | formSubmit (url email : String) (diet : DietaryPreference) (success : Bool)
deriving DecidableEq, Repr

/-- bot.py `book_lunch` (lines 443-445): builds a `BrowserAutomator` and
evaluates `browser_automator.run_all(settings.form_url, email,
dietary_preference)`. Python resolves the attribute `run_all` on the
instance before evaluating the argument `settings.form_url`; a name not in
the class raises `AttributeError`. Had the resolved name been `fill_form`,
the call would dispatch into the form script (the `formSubmit` branch);
dispatching any other existing method with these arguments would be a
`TypeError`. Both of those branches are dead here since
`bookingMethodName = "run_all"` is not a method of the class. -/
def book_lunch (page : PageEnv) (email : String)
    (dietary_preference : DietaryPreference) : List Eff × Except PyExc Unit :=
  if bookingMethodName ∈ browserAutomatorMethods then
    match settings_form_url with
    | .error e => ([], .error e)
    | .ok url =>
        if bookingMethodName = "fill_form" then
          ([.formSubmit url email dietary_preference
              (fill_form page url email dietary_preference)], .ok ())
        else ([], .error (.typeError bookingMethodName))
  else ([], .error (.attributeError bookingMethodName))

/-- Behaviour of the Telegram transport during a resolution pass:
`send_message chat text` either delivers or raises. -/
structure Env where
  send_message : ℕ → String → Except PyExc Unit
  page : PageEnv

/-- Log line f-string `"Booking lunch for user {id} ({name})"`. -/
def bookingLog (u : User) : String :=
  "Booking lunch for user " ++ toString u.telegram_id ++ " (" ++ u.full_name ++ ")"

/-- Log line f-string `"User {id} ({name}) has not opted for lunch tomorrow"`. -/
def skipLog (u : User) : String :=
  "User " ++ toString u.telegram_id ++ " (" ++ u.full_name ++
    ") has not opted for lunch tomorrow"

/-- Log line f-string `"Failed to book lunch for user {id} ({name})"`. -/
def bookFailLog (u : User) : String :=
  "Failed to book lunch for user " ++ toString u.telegram_id ++
    " (" ++ u.full_name ++ ")"

/-- The `try` body of the per-user closure `process_user` inside
`process_lunch_bookings` (bot.py lines 405-432): positive responders are
booked, negative responders are logged as skipped, and non-responders are
notified of the timeout and resolved by membership of `tomorrow` in their
preferred days. An effect is recorded for every call that is attempted,
including one that raises; a raise aborts the rest of the body. -/
def process_user_try (env : Env) (yes_responders no_responders : Finset ℕ)
    (tomorrow : String) (u : User) : List Eff × Except PyExc Unit :=
  if u.telegram_id ∈ yes_responders then
    let br := book_lunch env.page u.email u.dietary_preference
    (.logInfo (bookingLog u) :: .bookLunchCall u.email u.dietary_preference :: br.1,
     br.2)
  else if u.telegram_id ∈ no_responders then
    ([.logInfo (skipLog u)], .ok ())
  else
    if tomorrow ∈ u.preferred_days then
      match env.send_message u.telegram_id LUNCH_TIMEOUT_OPT_IN with
      | .error e => ([.sendMessage u.telegram_id LUNCH_TIMEOUT_OPT_IN], .error e)
      | .ok _ =>
          let br := book_lunch env.page u.email u.dietary_preference
          (.sendMessage u.telegram_id LUNCH_TIMEOUT_OPT_IN ::
             .logInfo (bookingLog u) ::
             .bookLunchCall u.email u.dietary_preference :: br.1,
           br.2)
    else
      match env.send_message u.telegram_id LUNCH_TIMEOUT_OPT_OUT with
      | .error e => ([.sendMessage u.telegram_id LUNCH_TIMEOUT_OPT_OUT], .error e)
      | .ok _ =>
          ([.sendMessage u.telegram_id LUNCH_TIMEOUT_OPT_OUT,
            .logInfo (skipLog u)], .ok ())

/-- The per-user closure `process_user` (bot.py lines 404-437): the `try`
body wrapped in the `except` clause, which catches every exception and logs
the failure; nothing propagates out of a user's task. -/
def process_user (env : Env) (yes_responders no_responders : Finset ℕ)
    (tomorrow : String) (u : User) : List Eff :=
  match process_user_try env yes_responders no_responders tomorrow u with
  | (effs, .ok _) => effs
  | (effs, .error _) => effs ++ [.logError (bookFailLog u)]

/-- bot.py `process_lunch_bookings` (lines 392-441): flips `window_open` to
`False`, snapshots both response sets, and spawns one `process_user` task
per user returned by `get_enrolled_users()` (the `users` parameter);
`tomorrow` is the lower-cased weekday name of the next calendar day. -/
def process_lunch_bookings (env : Env) (users : List User) (tomorrow : String)
    (st : LunchConfirmation) : LunchConfirmation × List (List Eff) :=
  let closed : LunchConfirmation := { st with window_open := false }
  (closed,
   users.map (process_user env closed.positive_response closed.negative_response
                tomorrow))

/-! ### The post-resolution decision -/

/-- The final book/skip decision of the spec. -/
inductive Decision
  | book
  | skip
deriving DecidableEq, Repr

/-- Whether an effect is the driver entering `book_lunch`. -/
def Eff.isBookCall : Eff → Bool
  | .bookLunchCall _ _ => true
  | _ => false

/-- An environment in which every outbound send and every page action
succeeds; used only to read off which branch of `process_user` a user's
resolution takes. -/
def happyEnv : Env :=
  { send_message := fun _ _ => .ok ()
    page :=
      { start := .ok ()
        goto := fun _ => .ok ()
        fill := fun _ _ => .ok ()
        click := fun _ => .ok ()
        wait_for_selector := fun _ => .ok () } }

/-- The post-resolution decision for a user, extracted from the embedded
resolution body: `book` exactly when `process_user` (run with no delivery
failures) reaches the call to `book_lunch` for that user, `skip` otherwise. -/
def post_resolution_decision (yes_responders no_responders : Finset ℕ)
    (tomorrow : String) (u : User) : Decision :=
  if (process_user happyEnv yes_responders no_responders tomorrow u).any
       Eff.isBookCall
  then .book else .skip

/-! ### Auxiliary predicates and sample data -/

/-- Whether an operation is a record (an inbound `handle_lunch_response`). -/
def Op.isRecord : Op → Bool
  | .record _ _ => true
  | _ => false

/-- The record operation of one user's single yes/no click: `true` is a
`lunch_yes` callback, `false` a `lunch_no` callback. -/
def recordOf (p : ℕ × Bool) : Op :=
  .record p.1 (if p.2 then "lunch_yes" else "lunch_no")

/-- Whether an effect is a dispatch into `BrowserAutomator.fill_form`. -/
def Eff.isFormSubmit : Eff → Bool
  | .formSubmit _ _ _ _ => true
  | _ => false

/-- Sample enrolled user preferring Tuesday and Wednesday. -/
def uAlice : User :=
  { telegram_id := 1
    full_name := "Alice"
    email := "alice@example.com"
    dietary_preference := .VEG
    preferred_days := ["tuesday", "wednesday"] }

/-- Sample enrolled user preferring Thursday only. -/
def uBob : User :=
  { telegram_id := 2
    full_name := "Bob"
    email := "bob@example.com"
    dietary_preference := .NON_VEG
    preferred_days := ["thursday"] }

/-- Sample enrolled user with an empty preferred-days set. -/
def uCarol : User :=
  { telegram_id := 3
    full_name := "Carol"
    email := "carol@example.com"
    dietary_preference := .VEG
    preferred_days := [] }

/-- Sample non-enrolled responder id (not the id of any sample user). -/
def strangerId : ℕ := 99

/-! ## Helper lemmas about the window operations -/

/-- `book_lunch` always raises: `run_all` is not a method of
`BrowserAutomator`, so the attribute lookup fails before anything else. -/
theorem book_lunch_eq (page : PageEnv) (email : String) (d : DietaryPreference) :
    book_lunch page email d = ([], .error (.attributeError "run_all")) := rfl

/-- An open window accepts a `lunch_yes` by inserting the id into the
positive set. -/
theorem handle_open_yes (id : ℕ) (st : LunchConfirmation)
    (h : st.window_open = true) :
    handle_lunch_response id "lunch_yes" st =
      ({ st with positive_response := insert id st.positive_response },
       .recorded "lunch_yes") := by
  simp [handle_lunch_response, h]

/-- An open window accepts a `lunch_no` by inserting the id into the
negative set. -/
theorem handle_open_no (id : ℕ) (st : LunchConfirmation)
    (h : st.window_open = true) :
    handle_lunch_response id "lunch_no" st =
      ({ st with negative_response := insert id st.negative_response },
       .recorded "lunch_no") := by
  simp [handle_lunch_response, h]

/-- A closed window rejects every response: expired reply, no mutation. -/
theorem handle_closed (id : ℕ) (r : String) (st : LunchConfirmation)
    (h : st.window_open = false) :
    handle_lunch_response id r st = (st, .expired) := by
  simp [handle_lunch_response, h]

/-- `handle_lunch_response` never changes the open/closed flag. -/
theorem handle_window_open (id : ℕ) (r : String) (st : LunchConfirmation) :
    ((handle_lunch_response id r st).1).window_open = st.window_open := by
  unfold handle_lunch_response
  split_ifs <;> rfl

/-- Unfolding one step of a run. -/
theorem runFrom_cons (st : LunchConfirmation) (op : Op) (t : List Op) :
    runFrom st (op :: t) = runFrom (stepOp st op) t := rfl

/-- Runs compose over list append. -/
theorem runFrom_append (st : LunchConfirmation) (a b : List Op) :
    runFrom st (a ++ b) = runFrom (runFrom st a) b := by
  simp [runFrom, List.foldl_append]

/-- Record operations never change the open/closed flag. -/
theorem runFrom_records_window (ops : List Op) : ∀ st : LunchConfirmation,
    (∀ op ∈ ops, op.isRecord = true) →
    (runFrom st ops).window_open = st.window_open := by
  induction ops with
  | nil => intro st _; rfl
  | cons op t ih =>
    intro st hops
    have hop := hops op (List.mem_cons_self op t)
    rw [runFrom_cons]
    rw [ih (stepOp st op) (fun o ho => hops o (List.mem_cons_of_mem _ ho))]
    cases op with
    | record id r => exact handle_window_open id r st
    | openW => simp [Op.isRecord] at hop
    | close => simp [Op.isRecord] at hop

/-- A closed window absorbs any sequence of record operations unchanged. -/
theorem runFrom_records_closed (ops : List Op) : ∀ st : LunchConfirmation,
    st.window_open = false → (∀ op ∈ ops, op.isRecord = true) →
    runFrom st ops = st := by
  induction ops with
  | nil => intro st _ _; rfl
  | cons op t ih =>
    intro st hst hops
    have hop := hops op (List.mem_cons_self op t)
    rw [runFrom_cons]
    cases op with
    | record id r =>
        have hstep : stepOp st (Op.record id r) = st := by
          simp [stepOp, handle_closed id r st hst]
        rw [hstep]
        exact ih st hst (fun o ho => hops o (List.mem_cons_of_mem _ ho))
    | openW => simp [Op.isRecord] at hop
    | close => simp [Op.isRecord] at hop

/-- An id is in the positive set after a record only if it was already
there or the record was precisely its own `lunch_yes`. -/
theorem handle_pos_sub (i : ℕ) (r : String) (st : LunchConfirmation) (x : ℕ)
    (hx : x ∈ ((handle_lunch_response i r st).1).positive_response) :
    (x = i ∧ r = "lunch_yes") ∨ x ∈ st.positive_response := by
  unfold handle_lunch_response at hx
  split_ifs at hx with h1 h2 h3
  · rw [Finset.mem_insert] at hx
    rcases hx with rfl | hx
    · exact Or.inl ⟨rfl, h2⟩
    · exact Or.inr hx
  · exact Or.inr hx
  · exact Or.inr hx
  · exact Or.inr hx

/-- An id is in the negative set after a record only if it was already
there or the record was precisely its own `lunch_no`. -/
theorem handle_neg_sub (i : ℕ) (r : String) (st : LunchConfirmation) (x : ℕ)
    (hx : x ∈ ((handle_lunch_response i r st).1).negative_response) :
    (x = i ∧ r = "lunch_no") ∨ x ∈ st.negative_response := by
  unfold handle_lunch_response at hx
  split_ifs at hx with h1 h2 h3
  · exact Or.inr hx
  · rw [Finset.mem_insert] at hx
    rcases hx with rfl | hx
    · exact Or.inl ⟨rfl, h3⟩
    · exact Or.inr hx
  · exact Or.inr hx
  · exact Or.inr hx

/-- Positive-set membership after a run traces back to a `lunch_yes` record
in the run or to the starting state. -/
theorem mem_pos_runFrom (ops : List Op) : ∀ (st : LunchConfirmation) (x : ℕ),
    x ∈ (runFrom st ops).positive_response →
    Op.record x "lunch_yes" ∈ ops ∨ x ∈ st.positive_response := by
  induction ops with
  | nil => intro st x h; exact Or.inr h
  | cons op t ih =>
    intro st x h
    rw [runFrom_cons] at h
    rcases ih (stepOp st op) x h with h1 | h2
    · exact Or.inl (List.mem_cons_of_mem _ h1)
    · cases op with
      | openW => simp [stepOp, send_lunch_reminders_state] at h2
      | close => exact Or.inr h2
      | record i r =>
          rcases handle_pos_sub i r st x h2 with ⟨rfl, rfl⟩ | hin
          · exact Or.inl (List.mem_cons_self _ _)
          · exact Or.inr hin

/-- Negative-set membership after a run traces back to a `lunch_no` record
in the run or to the starting state. -/
theorem mem_neg_runFrom (ops : List Op) : ∀ (st : LunchConfirmation) (x : ℕ),
    x ∈ (runFrom st ops).negative_response →
    Op.record x "lunch_no" ∈ ops ∨ x ∈ st.negative_response := by
  induction ops with
  | nil => intro st x h; exact Or.inr h
  | cons op t ih =>
    intro st x h
    rw [runFrom_cons] at h
    rcases ih (stepOp st op) x h with h1 | h2
    · exact Or.inl (List.mem_cons_of_mem _ h1)
    · cases op with
      | openW => simp [stepOp, send_lunch_reminders_state] at h2
      | close => exact Or.inr h2
      | record i r =>
          rcases handle_neg_sub i r st x h2 with ⟨rfl, rfl⟩ | hin
          · exact Or.inl (List.mem_cons_self _ _)
          · exact Or.inr hin

/-- Exact positive-set membership after an open window absorbs a list of
single clicks: exactly the ids that clicked yes, plus what was already
there. -/
theorem mem_pos_records (l : List (ℕ × Bool)) : ∀ (st : LunchConfirmation),
    st.window_open = true → ∀ x : ℕ,
    (x ∈ (runFrom st (l.map recordOf)).positive_response ↔
      (x, true) ∈ l ∨ x ∈ st.positive_response) := by
  induction l with
  | nil => intro st _ x; simp [runFrom]
  | cons p t ih =>
    intro st hst x
    obtain ⟨id, b⟩ := p
    cases b with
    | true =>
        have hstep : stepOp st (recordOf (id, true)) =
            { st with positive_response := insert id st.positive_response } := by
          simp [stepOp, recordOf, handle_open_yes id st hst]
        rw [List.map_cons, runFrom_cons, hstep,
          ih { st with positive_response := insert id st.positive_response } hst x]
        simp only [Finset.mem_insert, List.mem_cons, Prod.mk.injEq]
        tauto
    | false =>
        have hstep : stepOp st (recordOf (id, false)) =
            { st with negative_response := insert id st.negative_response } := by
          simp [stepOp, recordOf, handle_open_no id st hst]
        rw [List.map_cons, runFrom_cons, hstep,
          ih { st with negative_response := insert id st.negative_response } hst x]
        simp only [List.mem_cons, Prod.mk.injEq]
        have : ¬ ((x, true) = (id, false)) := by simp
        tauto

/-- Exact negative-set membership after an open window absorbs a list of
single clicks. -/
theorem mem_neg_records (l : List (ℕ × Bool)) : ∀ (st : LunchConfirmation),
    st.window_open = true → ∀ x : ℕ,
    (x ∈ (runFrom st (l.map recordOf)).negative_response ↔
      (x, false) ∈ l ∨ x ∈ st.negative_response) := by
  induction l with
  | nil => intro st _ x; simp [runFrom]
  | cons p t ih =>
    intro st hst x
    obtain ⟨id, b⟩ := p
    cases b with
    | true =>
        have hstep : stepOp st (recordOf (id, true)) =
            { st with positive_response := insert id st.positive_response } := by
          simp [stepOp, recordOf, handle_open_yes id st hst]
        rw [List.map_cons, runFrom_cons, hstep,
          ih { st with positive_response := insert id st.positive_response } hst x]
        simp only [List.mem_cons, Prod.mk.injEq]
        have : ¬ ((x, false) = (id, true)) := by simp
        tauto
    | false =>
        have hstep : stepOp st (recordOf (id, false)) =
            { st with negative_response := insert id st.negative_response } := by
          simp [stepOp, recordOf, handle_open_no id st hst]
        rw [List.map_cons, runFrom_cons, hstep,
          ih { st with negative_response := insert id st.negative_response } hst x]
        simp only [Finset.mem_insert, List.mem_cons, Prod.mk.injEq]
        tauto

/-- Every element of a `recordOf` image is a record operation. -/
theorem recordOf_isRecord (l : List (ℕ × Bool)) :
    ∀ op ∈ l.map recordOf, op.isRecord = true := by
  intro op hop
  rcases List.mem_map.mp hop with ⟨p, _, rfl⟩
  rfl

/-! ## Helper lemmas about the resolution pass -/

/-- Resolution of a positive responder: booking is attempted, the booking
raises (see `book_lunch_eq`), the failure is caught and logged. -/
theorem process_user_yes (env : Env) (yes no : Finset ℕ) (tomorrow : String)
    (u : User) (h : u.telegram_id ∈ yes) :
    process_user env yes no tomorrow u =
      [.logInfo (bookingLog u),
       .bookLunchCall u.email u.dietary_preference,
       .logError (bookFailLog u)] := by
  simp [process_user, process_user_try, h, book_lunch_eq]

/-- Resolution of a negative responder: a log line, nothing else. -/
theorem process_user_no (env : Env) (yes no : Finset ℕ) (tomorrow : String)
    (u : User) (hy : u.telegram_id ∉ yes) (hn : u.telegram_id ∈ no) :
    process_user env yes no tomorrow u = [.logInfo (skipLog u)] := by
  simp [process_user, process_user_try, hy, hn]

/-- Resolution of a non-responder whose preferred days include tomorrow,
when the timeout notification is delivered: notify, then attempt the
booking, which raises and is logged. -/
theorem process_user_default_in_ok (env : Env) (yes no : Finset ℕ)
    (tomorrow : String) (u : User) (hy : u.telegram_id ∉ yes)
    (hn : u.telegram_id ∉ no) (hd : tomorrow ∈ u.preferred_days)
    (hsend : env.send_message u.telegram_id LUNCH_TIMEOUT_OPT_IN = .ok ()) :
    process_user env yes no tomorrow u =
      [.sendMessage u.telegram_id LUNCH_TIMEOUT_OPT_IN,
       .logInfo (bookingLog u),
       .bookLunchCall u.email u.dietary_preference,
       .logError (bookFailLog u)] := by
  simp [process_user, process_user_try, hy, hn, hd, hsend, book_lunch_eq]

/-- Resolution of a non-responder whose preferred days include tomorrow,
when the timeout notification raises: the send is attempted and the
failure is caught and logged; no booking is attempted. -/
theorem process_user_default_in_err (env : Env) (yes no : Finset ℕ)
    (tomorrow : String) (u : User) (e : PyExc) (hy : u.telegram_id ∉ yes)
    (hn : u.telegram_id ∉ no) (hd : tomorrow ∈ u.preferred_days)
    (hsend : env.send_message u.telegram_id LUNCH_TIMEOUT_OPT_IN = .error e) :
    process_user env yes no tomorrow u =
      [.sendMessage u.telegram_id LUNCH_TIMEOUT_OPT_IN,
       .logError (bookFailLog u)] := by
  simp [process_user, process_user_try, hy, hn, hd, hsend]

/-- Resolution of a non-responder whose preferred days exclude tomorrow,
when the timeout notification is delivered: notify and log the skip. -/
theorem process_user_default_out_ok (env : Env) (yes no : Finset ℕ)
    (tomorrow : String) (u : User) (hy : u.telegram_id ∉ yes)
    (hn : u.telegram_id ∉ no) (hd : tomorrow ∉ u.preferred_days)
    (hsend : env.send_message u.telegram_id LUNCH_TIMEOUT_OPT_OUT = .ok ()) :
    process_user env yes no tomorrow u =
      [.sendMessage u.telegram_id LUNCH_TIMEOUT_OPT_OUT,
       .logInfo (skipLog u)] := by
  simp [process_user, process_user_try, hy, hn, hd, hsend]

/-- Resolution of a non-responder whose preferred days exclude tomorrow,
when the timeout notification raises. -/
theorem process_user_default_out_err (env : Env) (yes no : Finset ℕ)
    (tomorrow : String) (u : User) (e : PyExc) (hy : u.telegram_id ∉ yes)
    (hn : u.telegram_id ∉ no) (hd : tomorrow ∉ u.preferred_days)
    (hsend : env.send_message u.telegram_id LUNCH_TIMEOUT_OPT_OUT = .error e) :
    process_user env yes no tomorrow u =
      [.sendMessage u.telegram_id LUNCH_TIMEOUT_OPT_OUT,
       .logError (bookFailLog u)] := by
  simp [process_user, process_user_try, hy, hn, hd, hsend]

/-- The decision read off from the embedded resolution body equals the
three-step precedence formula of the spec. -/
theorem post_resolution_decision_eq (yes no : Finset ℕ) (tomorrow : String)
    (u : User) :
    post_resolution_decision yes no tomorrow u =
      (if u.telegram_id ∈ yes then Decision.book
       else if u.telegram_id ∈ no then Decision.skip
       else if tomorrow ∈ u.preferred_days then Decision.book
       else Decision.skip) := by
  by_cases h1 : u.telegram_id ∈ yes
  · rw [post_resolution_decision, process_user_yes happyEnv yes no tomorrow u h1]
    simp [Eff.isBookCall, h1]
  · by_cases h2 : u.telegram_id ∈ no
    · rw [post_resolution_decision, process_user_no happyEnv yes no tomorrow u h1 h2]
      simp [Eff.isBookCall, h1, h2]
    · by_cases h3 : tomorrow ∈ u.preferred_days
      · rw [post_resolution_decision,
          process_user_default_in_ok happyEnv yes no tomorrow u h1 h2 h3 rfl]
        simp [Eff.isBookCall, h1, h2, h3]
      · rw [post_resolution_decision,
          process_user_default_out_ok happyEnv yes no tomorrow u h1 h2 h3 rfl]
        simp [Eff.isBookCall, h1, h2, h3]

/-- Every outbound message produced while resolving a user goes to that
user's own chat id. -/
theorem process_user_send_target (env : Env) (yes no : Finset ℕ)
    (tomorrow : String) (u : User) (c : ℕ) (text : String)
    (h : Eff.sendMessage c text ∈ process_user env yes no tomorrow u) :
    c = u.telegram_id := by
  by_cases h1 : u.telegram_id ∈ yes
  · rw [process_user_yes env yes no tomorrow u h1] at h
    simp at h
  · by_cases h2 : u.telegram_id ∈ no
    · rw [process_user_no env yes no tomorrow u h1 h2] at h
      simp at h
    · by_cases h3 : tomorrow ∈ u.preferred_days
      · cases hsend : env.send_message u.telegram_id LUNCH_TIMEOUT_OPT_IN with
        | ok v =>
            cases v
            rw [process_user_default_in_ok env yes no tomorrow u h1 h2 h3 hsend] at h
            simp at h
            exact h.1
        | error e =>
            rw [process_user_default_in_err env yes no tomorrow u e h1 h2 h3 hsend] at h
            simp at h
            exact h.1
      · cases hsend : env.send_message u.telegram_id LUNCH_TIMEOUT_OPT_OUT with
        | ok v =>
            cases v
            rw [process_user_default_out_ok env yes no tomorrow u h1 h2 h3 hsend] at h
            simp at h
            exact h.1
        | error e =>
            rw [process_user_default_out_err env yes no tomorrow u e h1 h2 h3 hsend] at h
            simp at h
            exact h.1

/-- A user's resolution depends on the snapshot sets only through that
user's own membership in them. -/
theorem process_user_mem_congr (env : Env) (yes yes2 no no2 : Finset ℕ)
    (tomorrow : String) (u : User)
    (hy : u.telegram_id ∈ yes ↔ u.telegram_id ∈ yes2)
    (hn : u.telegram_id ∈ no ↔ u.telegram_id ∈ no2) :
    process_user env yes no tomorrow u =
      process_user env yes2 no2 tomorrow u := by
  by_cases h1 : u.telegram_id ∈ yes
  · rw [process_user_yes env yes no tomorrow u h1,
      process_user_yes env yes2 no2 tomorrow u (hy.mp h1)]
  · have h1b : u.telegram_id ∉ yes2 := fun hh => h1 (hy.mpr hh)
    by_cases h2 : u.telegram_id ∈ no
    · rw [process_user_no env yes no tomorrow u h1 h2,
        process_user_no env yes2 no2 tomorrow u h1b (hn.mp h2)]
    · have h2b : u.telegram_id ∉ no2 := fun hh => h2 (hn.mpr hh)
      by_cases h3 : tomorrow ∈ u.preferred_days
      · cases hs : env.send_message u.telegram_id LUNCH_TIMEOUT_OPT_IN with
        | ok v =>
            cases v
            rw [process_user_default_in_ok env yes no tomorrow u h1 h2 h3 hs,
              process_user_default_in_ok env yes2 no2 tomorrow u h1b h2b h3 hs]
        | error e =>
            rw [process_user_default_in_err env yes no tomorrow u e h1 h2 h3 hs,
              process_user_default_in_err env yes2 no2 tomorrow u e h1b h2b h3 hs]
      · cases hs : env.send_message u.telegram_id LUNCH_TIMEOUT_OPT_OUT with
        | ok v =>
            cases v
            rw [process_user_default_out_ok env yes no tomorrow u h1 h2 h3 hs,
              process_user_default_out_ok env yes2 no2 tomorrow u h1b h2b h3 hs]
        | error e =>
            rw [process_user_default_out_err env yes no tomorrow u e h1 h2 h3 hs,
              process_user_default_out_err env yes2 no2 tomorrow u e h1b h2b h3 hs]

/-! ## The claims -/

/-- C1: For every enrolled user returned by the directory at resolution
time, the post-resolution decision follows the three-step precedence: a
positive responder books regardless of preferred days, else a negative
responder skips, else the decision is the membership test of tomorrow's
weekday name in the preferred-days set; in particular a silent user with an
empty preferred-days set resolves to skip. -/
theorem c1_decision_precedence (yes_responders no_responders : Finset ℕ)
    (tomorrow : String) (u : User) :
    post_resolution_decision yes_responders no_responders tomorrow u =
      (if u.telegram_id ∈ yes_responders then Decision.book
       else if u.telegram_id ∈ no_responders then Decision.skip
       else if tomorrow ∈ u.preferred_days then Decision.book
       else Decision.skip) ∧
    (u.telegram_id ∉ yes_responders → u.telegram_id ∉ no_responders →
      u.preferred_days = [] →
      post_resolution_decision yes_responders no_responders tomorrow u =
        Decision.skip) := by
  refine ⟨post_resolution_decision_eq yes_responders no_responders tomorrow u, ?_⟩
  intro h1 h2 h3
  rw [post_resolution_decision_eq]
  simp [h1, h2, h3]

/-- Witness for C1: Alice, having clicked YES, books even on a day outside
her preferred days; silent Carol with an empty preferred-days set skips. -/
theorem c1_decision_precedence_witness :
    post_resolution_decision {1} ∅ "thursday" uAlice = Decision.book ∧
    post_resolution_decision ∅ ∅ "tuesday" uCarol = Decision.skip := by
  constructor
  · rw [(c1_decision_precedence {1} ∅ "thursday" uAlice).1]
    decide
  · exact (c1_decision_precedence ∅ ∅ "tuesday" uCarol).2 (by decide) (by decide) rfl

/-- C2: A response recorded while the window is closed yields the expired
outcome, leaves the window untouched, leaves the whole resolution pass
unchanged, and such a user (absent from both sets) is still resolved by the
timeout default. -/
theorem c2_record_after_close (st : LunchConfirmation) (id : ℕ)
    (response : String) (h : st.window_open = false) :
    handle_lunch_response id response st = (st, Outcome.expired) ∧
    (∀ (env : Env) (users : List User) (tomorrow : String),
      process_lunch_bookings env users tomorrow
          ((handle_lunch_response id response st).1) =
        process_lunch_bookings env users tomorrow st) ∧
    (∀ (tomorrow : String) (u : User), u.telegram_id = id →
      id ∉ st.positive_response → id ∉ st.negative_response →
      post_resolution_decision st.positive_response st.negative_response
          tomorrow u =
        (if tomorrow ∈ u.preferred_days then Decision.book
         else Decision.skip)) := by
  have h1 := handle_closed id response st h
  refine ⟨h1, fun env users tomorrow => by rw [h1], ?_⟩
  intro tomorrow u hu hp hn
  rw [post_resolution_decision_eq]
  simp [hu, hp, hn]

/-- Witness for C2: a YES clicked into the start-up (closed) window expires
and silent Carol still resolves via the default path. -/
theorem c2_record_after_close_witness :
    handle_lunch_response 3 "lunch_yes" initConfirmation =
      (initConfirmation, Outcome.expired) ∧
    post_resolution_decision initConfirmation.positive_response
        initConfirmation.negative_response "tuesday" uCarol = Decision.skip := by
  have H := c2_record_after_close initConfirmation 3 "lunch_yes" rfl
  refine ⟨H.1, ?_⟩
  rw [H.2.2 "tuesday" uCarol rfl (by decide) (by decide)]
  decide

/-- C3 counterexample: the claimed invariant that a user id appears in at
most one of the two response sets fails on a reachable state: after an open
window absorbs a YES and then a NO from the same user, the id sits in both
sets. -/
theorem c3_counterexample :
    ∃ st : LunchConfirmation, Reachable st ∧
      ∃ id : ℕ, id ∈ st.positive_response ∧ id ∈ st.negative_response := by
  refine ⟨runOps [Op.openW, Op.record 1 "lunch_yes", Op.record 1 "lunch_no"],
    ⟨[Op.openW, Op.record 1 "lunch_yes", Op.record 1 "lunch_no"], rfl⟩,
    1, ?_, ?_⟩
  · decide
  · decide

/-- C3 amended: at every reachable state, an id appears in a response set
only if that user actually recorded the corresponding choice; hence an id
in both sets recorded both a YES and a NO, and a user who never sent two
different choices appears in at most one set. -/
theorem c3_both_sets_need_both_choices (ops : List Op) (id : ℕ)
    (hpos : id ∈ (runOps ops).positive_response)
    (hneg : id ∈ (runOps ops).negative_response) :
    Op.record id "lunch_yes" ∈ ops ∧ Op.record id "lunch_no" ∈ ops := by
  constructor
  · rcases mem_pos_runFrom ops initConfirmation id hpos with h | h
    · exact h
    · simp [initConfirmation] at h
  · rcases mem_neg_runFrom ops initConfirmation id hneg with h | h
    · exact h
    · simp [initConfirmation] at h

/-- Witness for the amended C3 on a concrete double-response run. -/
theorem c3_both_sets_need_both_choices_witness :
    Op.record 2 "lunch_yes" ∈
        [Op.openW, Op.record 2 "lunch_yes", Op.record 2 "lunch_no"] ∧
    Op.record 2 "lunch_no" ∈
        [Op.openW, Op.record 2 "lunch_yes", Op.record 2 "lunch_no"] :=
  c3_both_sets_need_both_choices
    [Op.openW, Op.record 2 "lunch_yes", Op.record 2 "lunch_no"] 2
    (by decide) (by decide)

/-- C4 counterexample: user 3 records NO and then YES within the same open
window; the id lands in both sets, and the resolution decides book because
the positive set is checked first — the decision does NOT match the
chronologically first recorded choice (NO, i.e. skip). -/
theorem c4_counterexample :
    (3 ∈ (runOps [Op.openW, Op.record 3 "lunch_no",
        Op.record 3 "lunch_yes"]).positive_response ∧
     3 ∈ (runOps [Op.openW, Op.record 3 "lunch_no",
        Op.record 3 "lunch_yes"]).negative_response) ∧
    post_resolution_decision
        (runOps [Op.openW, Op.record 3 "lunch_no",
          Op.record 3 "lunch_yes"]).positive_response
        (runOps [Op.openW, Op.record 3 "lunch_no",
          Op.record 3 "lunch_yes"]).negative_response
        "tuesday" uCarol = Decision.book ∧
    Decision.book ≠ Decision.skip := by
  refine ⟨⟨by decide, by decide⟩, ?_, by decide⟩
  rw [post_resolution_decision_eq]
  decide

/-- C4 amended: two different choices from the same user within one open
window (in either order) leave the id in both sets, and any user present in
both snapshot sets resolves to book — so the first response wins exactly
when the order was YES then NO, while a NO-then-YES user books as well. -/
theorem c4_double_response_books (st : LunchConfirmation) (id : ℕ)
    (hopen : st.window_open = true) :
    (id ∈ (runFrom st [Op.record id "lunch_yes",
        Op.record id "lunch_no"]).positive_response ∧
     id ∈ (runFrom st [Op.record id "lunch_yes",
        Op.record id "lunch_no"]).negative_response) ∧
    (id ∈ (runFrom st [Op.record id "lunch_no",
        Op.record id "lunch_yes"]).positive_response ∧
     id ∈ (runFrom st [Op.record id "lunch_no",
        Op.record id "lunch_yes"]).negative_response) ∧
    (∀ (yes no : Finset ℕ) (tomorrow : String) (u : User),
      u.telegram_id ∈ yes → u.telegram_id ∈ no →
      post_resolution_decision yes no tomorrow u = Decision.book) := by
  have e1 : stepOp st (Op.record id "lunch_yes") =
      { st with positive_response := insert id st.positive_response } := by
    simp [stepOp, handle_open_yes id st hopen]
  have e2 : stepOp st (Op.record id "lunch_no") =
      { st with negative_response := insert id st.negative_response } := by
    simp [stepOp, handle_open_no id st hopen]
  have e3 : stepOp { st with positive_response := insert id st.positive_response }
      (Op.record id "lunch_no") =
      { st with positive_response := insert id st.positive_response,
                negative_response := insert id st.negative_response } := by
    simp [stepOp,
      handle_open_no id { st with positive_response := insert id st.positive_response } hopen]
  have e4 : stepOp { st with negative_response := insert id st.negative_response }
      (Op.record id "lunch_yes") =
      { st with positive_response := insert id st.positive_response,
                negative_response := insert id st.negative_response } := by
    simp [stepOp,
      handle_open_yes id { st with negative_response := insert id st.negative_response } hopen]
  refine ⟨?_, ?_, ?_⟩
  · rw [runFrom_cons, e1, runFrom_cons, e3]
    exact ⟨Finset.mem_insert_self id _, Finset.mem_insert_self id _⟩
  · rw [runFrom_cons, e2, runFrom_cons, e4]
    exact ⟨Finset.mem_insert_self id _, Finset.mem_insert_self id _⟩
  · intro yes no tomorrow u hy hn
    rw [post_resolution_decision_eq]
    simp [hy]

/-- Witness for the amended C4 on the freshly opened window and Carol
present in both snapshot sets. -/
theorem c4_double_response_books_witness :
    3 ∈ (runFrom (send_lunch_reminders_state initConfirmation)
        [Op.record 3 "lunch_no", Op.record 3 "lunch_yes"]).positive_response ∧
    post_resolution_decision {3} {3} "tuesday" uCarol = Decision.book := by
  have H := c4_double_response_books (send_lunch_reminders_state initConfirmation) 3 rfl
  exact ⟨H.2.1.1, H.2.2 {3} {3} "tuesday" uCarol (by decide) (by decide)⟩

/-- C5, evaluated at the failing input: for any user whose decision is
book, the driver's `book_lunch` raises `AttributeError` at once (it invokes
`run_all`, which `BrowserAutomator` does not define — and `settings` has no
`form_url` field either), the user's resolution trace is just the booking
log, the aborted call and the caught-failure log, and no dispatch into
`fill_form` (the Form Submitter) ever appears. -/
theorem c5_booking_never_reaches_submitter (env : Env) (yes no : Finset ℕ)
    (tomorrow : String) (u : User) (h : u.telegram_id ∈ yes) :
    book_lunch env.page u.email u.dietary_preference =
      ([], .error (.attributeError "run_all")) ∧
    process_user env yes no tomorrow u =
      [.logInfo (bookingLog u),
       .bookLunchCall u.email u.dietary_preference,
       .logError (bookFailLog u)] ∧
    (∀ e ∈ process_user env yes no tomorrow u, e.isFormSubmit = false) := by
  refine ⟨book_lunch_eq env.page u.email u.dietary_preference,
    process_user_yes env yes no tomorrow u h, ?_⟩
  intro e he
  rw [process_user_yes env yes no tomorrow u h] at he
  simp at he
  rcases he with rfl | rfl | rfl <;> rfl

/-- Witness for C5: Alice clicked YES; her booking trace shows the aborted
call and the logged failure, with no form submission. -/
theorem c5_booking_never_reaches_submitter_witness :
    process_user happyEnv {1} ∅ "tuesday" uAlice =
      [Eff.logInfo (bookingLog uAlice),
       Eff.bookLunchCall uAlice.email uAlice.dietary_preference,
       Eff.logError (bookFailLog uAlice)] :=
  (c5_booking_never_reaches_submitter happyEnv {1} ∅ "tuesday" uAlice
    (by decide)).2.1

/-- C6: a Notifier or Form Submitter failure while resolving one user is
caught per user: every enrolled user gets exactly one result in the
fan-out, a user's own result appears in it, and that result is unchanged
under any change to the environment's behaviour towards other users (only
the behaviour towards the user's own chat id matters, the page behaviour
being shared). -/
theorem c6_failure_isolation (env env2 : Env) (users : List User)
    (tomorrow : String) (st : LunchConfirmation) (u : User)
    (_hpage : env.page = env2.page)
    (hsend : ∀ t : String, env.send_message u.telegram_id t =
      env2.send_message u.telegram_id t) :
    (process_lunch_bookings env users tomorrow st).2.length = users.length ∧
    (u ∈ users →
      process_user env st.positive_response st.negative_response tomorrow u ∈
        (process_lunch_bookings env users tomorrow st).2) ∧
    process_user env st.positive_response st.negative_response tomorrow u =
      process_user env2 st.positive_response st.negative_response tomorrow u := by
  refine ⟨by simp [process_lunch_bookings], ?_, ?_⟩
  · intro hu
    exact List.mem_map_of_mem
      (process_user env st.positive_response st.negative_response tomorrow) hu
  · by_cases h1 : u.telegram_id ∈ st.positive_response
    · rw [process_user_yes env _ _ tomorrow u h1,
        process_user_yes env2 _ _ tomorrow u h1]
    · by_cases h2 : u.telegram_id ∈ st.negative_response
      · rw [process_user_no env _ _ tomorrow u h1 h2,
          process_user_no env2 _ _ tomorrow u h1 h2]
      · by_cases h3 : tomorrow ∈ u.preferred_days
        · cases hs : env2.send_message u.telegram_id LUNCH_TIMEOUT_OPT_IN with
          | ok v =>
              cases v
              rw [process_user_default_in_ok env _ _ tomorrow u h1 h2 h3
                  ((hsend LUNCH_TIMEOUT_OPT_IN).trans hs),
                process_user_default_in_ok env2 _ _ tomorrow u h1 h2 h3 hs]
          | error e =>
              rw [process_user_default_in_err env _ _ tomorrow u e h1 h2 h3
                  ((hsend LUNCH_TIMEOUT_OPT_IN).trans hs),
                process_user_default_in_err env2 _ _ tomorrow u e h1 h2 h3 hs]
        · cases hs : env2.send_message u.telegram_id LUNCH_TIMEOUT_OPT_OUT with
          | ok v =>
              cases v
              rw [process_user_default_out_ok env _ _ tomorrow u h1 h2 h3
                  ((hsend LUNCH_TIMEOUT_OPT_OUT).trans hs),
                process_user_default_out_ok env2 _ _ tomorrow u h1 h2 h3 hs]
          | error e =>
              rw [process_user_default_out_err env _ _ tomorrow u e h1 h2 h3
                  ((hsend LUNCH_TIMEOUT_OPT_OUT).trans hs),
                process_user_default_out_err env2 _ _ tomorrow u e h1 h2 h3 hs]

/-- Witness for C6: Alice's resolution trace is identical whether the
transport works for everyone or fails for every chat but hers. -/
theorem c6_failure_isolation_witness :
    process_user happyEnv ∅ ∅ "tuesday" uAlice =
      process_user
        { send_message := fun c _ =>
            if c = 1 then Except.ok () else Except.error (PyExc.telegramError "down")
          page := happyEnv.page }
        ∅ ∅ "tuesday" uAlice :=
  (c6_failure_isolation happyEnv
    { send_message := fun c _ =>
        if c = 1 then Except.ok () else Except.error (PyExc.telegramError "down")
      page := happyEnv.page }
    [uAlice, uBob] "tuesday" initConfirmation uAlice rfl (fun _ => rfl)).2.2

/-- C7: opening clears both response sets and opens the window; an open
followed immediately by a close yields the empty snapshot, and every
enrolled user is then resolved by the default-preference timeout path,
receiving one of the two timeout notifications. -/
theorem c7_open_then_close_defaults (st : LunchConfirmation) (env : Env)
    (users : List User) (tomorrow : String) :
    (send_lunch_reminders_state st).positive_response = ∅ ∧
    (send_lunch_reminders_state st).negative_response = ∅ ∧
    (send_lunch_reminders_state st).window_open = true ∧
    (process_lunch_bookings env users tomorrow
        (send_lunch_reminders_state st)).1 =
      { positive_response := ∅, negative_response := ∅, window_open := false } ∧
    (process_lunch_bookings env users tomorrow
        (send_lunch_reminders_state st)).2 =
      users.map (process_user env ∅ ∅ tomorrow) ∧
    ∀ u ∈ users,
      post_resolution_decision ∅ ∅ tomorrow u =
        (if tomorrow ∈ u.preferred_days then Decision.book
         else Decision.skip) ∧
      (Eff.sendMessage u.telegram_id LUNCH_TIMEOUT_OPT_IN ∈
          process_user env ∅ ∅ tomorrow u ∨
       Eff.sendMessage u.telegram_id LUNCH_TIMEOUT_OPT_OUT ∈
          process_user env ∅ ∅ tomorrow u) := by
  refine ⟨rfl, rfl, rfl, rfl, rfl, ?_⟩
  intro u _
  constructor
  · rw [post_resolution_decision_eq]
    simp
  · by_cases h3 : tomorrow ∈ u.preferred_days
    · left
      cases hs : env.send_message u.telegram_id LUNCH_TIMEOUT_OPT_IN with
      | ok v =>
          cases v
          rw [process_user_default_in_ok env ∅ ∅ tomorrow u (by simp) (by simp)
            h3 hs]
          simp
      | error e =>
          rw [process_user_default_in_err env ∅ ∅ tomorrow u e (by simp) (by simp)
            h3 hs]
          simp
    · right
      cases hs : env.send_message u.telegram_id LUNCH_TIMEOUT_OPT_OUT with
      | ok v =>
          cases v
          rw [process_user_default_out_ok env ∅ ∅ tomorrow u (by simp) (by simp)
            h3 hs]
          simp
      | error e =>
          rw [process_user_default_out_err env ∅ ∅ tomorrow u e (by simp) (by simp)
            h3 hs]
          simp

/-- Witness for C7: after open-then-close with no responses, Alice books by
default on a Tuesday cycle. -/
theorem c7_open_then_close_defaults_witness :
    post_resolution_decision ∅ ∅ "tuesday" uAlice = Decision.book := by
  have H := (c7_open_then_close_defaults initConfirmation happyEnv [uAlice]
    "tuesday").2.2.2.2.2 uAlice (by simp)
  rw [H.1]
  decide

/-- C8: an open window records a response from any id with no enrollment
check, but the resolution fan-out is a map over exactly the directory's
users, recording the stranger's response changes no enrolled user's trace,
and no outbound message ever targets an id outside the directory list. -/
theorem c8_nonenrolled_response_no_effect (st : LunchConfirmation)
    (hopen : st.window_open = true) (id : ℕ) (env : Env) (users : List User)
    (tomorrow : String) (hid : id ∉ users.map User.telegram_id) :
    handle_lunch_response id "lunch_yes" st =
      ({ st with positive_response := insert id st.positive_response },
       .recorded "lunch_yes") ∧
    handle_lunch_response id "lunch_no" st =
      ({ st with negative_response := insert id st.negative_response },
       .recorded "lunch_no") ∧
    (process_lunch_bookings env users tomorrow st).2 =
      users.map
        (process_user env st.positive_response st.negative_response tomorrow) ∧
    (process_lunch_bookings env users tomorrow
        ((handle_lunch_response id "lunch_yes" st).1)).2 =
      (process_lunch_bookings env users tomorrow st).2 ∧
    ∀ t ∈ (process_lunch_bookings env users tomorrow st).2,
      ∀ text : String, Eff.sendMessage id text ∉ t := by
  have hne : ∀ u ∈ users, u.telegram_id ≠ id := by
    intro u hu heq
    exact hid (heq ▸ List.mem_map_of_mem User.telegram_id hu)
  refine ⟨handle_open_yes id st hopen, handle_open_no id st hopen, rfl, ?_, ?_⟩
  · rw [handle_open_yes id st hopen]
    show List.map _ users = List.map _ users
    refine List.map_congr_left ?_
    intro u hu
    refine process_user_mem_congr env _ _ _ _ tomorrow u ?_ Iff.rfl
    show u.telegram_id ∈ insert id st.positive_response ↔ _
    rw [Finset.mem_insert]
    simp [hne u hu]
  · intro t ht text hmem
    rcases List.mem_map.mp ht with ⟨u, hu, rfl⟩
    exact hne u hu (process_user_send_target env _ _ tomorrow u id text hmem).symm

/-- Witness for C8: the open window accepts stranger id 99, and the
stranger gets no message in a concrete one-user resolution. -/
theorem c8_nonenrolled_response_no_effect_witness :
    handle_lunch_response strangerId "lunch_yes"
        (send_lunch_reminders_state initConfirmation) =
      ({ send_lunch_reminders_state initConfirmation with
          positive_response := insert strangerId
            (send_lunch_reminders_state initConfirmation).positive_response },
       .recorded "lunch_yes") :=
  (c8_nonenrolled_response_no_effect (send_lunch_reminders_state initConfirmation)
    rfl strangerId happyEnv [uAlice] "tuesday" (by decide)).1

/-- C9: with each record's test-and-insert and the close's flag-flip atomic
(neither contains an await between test and mutation), any interleaving of
N distinct users' records with one close gives: every record accepted
before the flip lands in exactly one set and is kept by the snapshot,
records arriving after the flip get the expired outcome and change nothing,
and the snapshot holds exactly the pre-flip responses. -/
theorem c9_close_atomic (before after : List (ℕ × Bool))
    (stC : LunchConfirmation)
    (hnodup : (before.map Prod.fst).Nodup)
    (hstC : stC = runOps (Op.openW :: (before.map recordOf ++ [Op.close]))) :
    runOps (Op.openW ::
        (before.map recordOf ++ [Op.close] ++ after.map recordOf)) = stC ∧
    stC.window_open = false ∧
    (∀ x : ℕ, x ∈ stC.positive_response ↔ (x, true) ∈ before) ∧
    (∀ x : ℕ, x ∈ stC.negative_response ↔ (x, false) ∈ before) ∧
    (∀ p ∈ before,
      (p.1 ∈ stC.positive_response ∨ p.1 ∈ stC.negative_response) ∧
      ¬ (p.1 ∈ stC.positive_response ∧ p.1 ∈ stC.negative_response)) ∧
    ∀ p : ℕ × Bool, p ∈ after →
      (handle_lunch_response p.1 (if p.2 then "lunch_yes" else "lunch_no")
        stC).2 = Outcome.expired := by
  have hsplit : runOps (Op.openW :: (before.map recordOf ++ [Op.close])) =
      { runFrom (⟨∅, ∅, true⟩ : LunchConfirmation) (before.map recordOf) with
          window_open := false } := by
    rw [runOps, runFrom, List.foldl_cons, List.foldl_append]
    rfl
  have hclosed : stC.window_open = false := by rw [hstC, hsplit]
  have hposC : ∀ x : ℕ, x ∈ stC.positive_response ↔ (x, true) ∈ before := by
    intro x
    rw [hstC, hsplit]
    show x ∈ (runFrom (⟨∅, ∅, true⟩ : LunchConfirmation)
      (before.map recordOf)).positive_response ↔ _
    rw [mem_pos_records before (⟨∅, ∅, true⟩ : LunchConfirmation) rfl x]
    show (x, true) ∈ before ∨ x ∈ (∅ : Finset ℕ) ↔ _
    simp
  have hnegC : ∀ x : ℕ, x ∈ stC.negative_response ↔ (x, false) ∈ before := by
    intro x
    rw [hstC, hsplit]
    show x ∈ (runFrom (⟨∅, ∅, true⟩ : LunchConfirmation)
      (before.map recordOf)).negative_response ↔ _
    rw [mem_neg_records before (⟨∅, ∅, true⟩ : LunchConfirmation) rfl x]
    show (x, false) ∈ before ∨ x ∈ (∅ : Finset ℕ) ↔ _
    simp
  refine ⟨?_, hclosed, hposC, hnegC, ?_, ?_⟩
  · have hX : runFrom (stepOp initConfirmation Op.openW)
        (before.map recordOf ++ [Op.close]) = stC := by
      rw [hstC, runOps, runFrom_cons]
    rw [runOps, runFrom_cons, runFrom_append, hX]
    exact runFrom_records_closed (after.map recordOf) stC hclosed
      (recordOf_isRecord after)
  · rintro ⟨x, b⟩ hp
    cases b with
    | true =>
        have hin : x ∈ stC.positive_response := (hposC x).mpr hp
        refine ⟨Or.inl hin, ?_⟩
        rintro ⟨-, hneg⟩
        have hf : (x, false) ∈ before := (hnegC x).mp hneg
        have := List.inj_on_of_nodup_map hnodup hp hf rfl
        simp at this
    | false =>
        have hin : x ∈ stC.negative_response := (hnegC x).mpr hp
        refine ⟨Or.inr hin, ?_⟩
        rintro ⟨hpos, -⟩
        have hf : (x, true) ∈ before := (hposC x).mp hpos
        have := List.inj_on_of_nodup_map hnodup hp hf rfl
        simp at this
  · intro p _
    rw [handle_closed p.1 _ stC hclosed]

/-- Witness for C9: users 1 (yes) and 2 (no) record before the close, user
3 after it; the snapshot keeps 1 and 2 in their single sets and the final
state is the snapshot. -/
theorem c9_close_atomic_witness :
    1 ∈ (runOps (Op.openW ::
        (([(1, true), (2, false)] : List (ℕ × Bool)).map recordOf ++
          [Op.close]))).positive_response ∧
    runOps (Op.openW ::
        (([(1, true), (2, false)] : List (ℕ × Bool)).map recordOf ++
          [Op.close] ++ ([(3, true)] : List (ℕ × Bool)).map recordOf)) =
      runOps (Op.openW ::
        (([(1, true), (2, false)] : List (ℕ × Bool)).map recordOf ++
          [Op.close])) := by
  have H := c9_close_atomic [(1, true), (2, false)] [(3, true)]
    (runOps (Op.openW ::
      (([(1, true), (2, false)] : List (ℕ × Bool)).map recordOf ++ [Op.close])))
    (by decide) rfl
  exact ⟨(H.2.2.1 1).mpr (by decide), H.1⟩

/-- C10: the window installed at startup is closed with both sets empty;
any sequence of responses arriving before the first reminder cycle leaves
it exactly in that state, every such response receiving the expired
outcome. -/
theorem c10_initial_window_closed (records : List (ℕ × String)) :
    initConfirmation.window_open = false ∧
    initConfirmation.positive_response = ∅ ∧
    initConfirmation.negative_response = ∅ ∧
    runFrom initConfirmation (records.map (fun p => Op.record p.1 p.2)) =
      initConfirmation ∧
    ∀ p ∈ records,
      (handle_lunch_response p.1 p.2 initConfirmation).2 = Outcome.expired := by
  refine ⟨rfl, rfl, rfl, ?_, ?_⟩
  · refine runFrom_records_closed _ initConfirmation rfl ?_
    intro op hop
    rcases List.mem_map.mp hop with ⟨q, -, rfl⟩
    rfl
  · intro p _
    rw [handle_closed p.1 p.2 initConfirmation rfl]

/-- Witness for C10: a YES clicked before any cycle has run expires. -/
theorem c10_initial_window_closed_witness :
    (handle_lunch_response 5 "lunch_yes" initConfirmation).2 =
      Outcome.expired :=
  (c10_initial_window_closed [(5, "lunch_yes")]).2.2.2.2 (5, "lunch_yes")
    (List.mem_singleton_self _)

end LunchBuddy
